import Mathlib

set_option maxRecDepth 4000

/-! Shallow embedding of tailor.py from the Resume-Automation repository.

Python strings are modelled as lists of characters.  External effects
(subprocess calls, the filesystem, the network, stdin) are supplied through
explicit environment records; the control flow of the Python functions,
including try/except boundaries and sys.exit calls, is translated into an
explicit result type.  Pure text transformations (regular-expression
substitutions and searches) are translated into executable Lean functions
that reproduce the semantics of the concrete patterns appearing in the
source. -/

/-- The backtick character (code point 96). -/
def backtickChar : Char := Char.ofNat 96

/-- The apostrophe character (code point 39). -/
def apoChar : Char := Char.ofNat 39

/-- Python whitespace, as matched by the regex class \s and str.strip()
on str objects: ASCII whitespace plus the Unicode space characters. -/
def pyIsSpace (c : Char) : Bool :=
  c = ' ' || c = '\t' || c = '\n' || c = '\x0b' || c = '\x0c' || c = '\x0d' ||
  c = '\x1c' || c = '\x1d' || c = '\x1e' || c = '\x1f' || c = '\x85' ||
  c = '\xa0' || c = ' ' || (' ' ≤ c && c ≤ ' ') ||
  c = ' ' || c = ' ' || c = ' ' || c = ' ' || c = '　'

/-- Remove the trailing run of characters satisfying p. -/
def dropTrailing (p : Char → Bool) (s : List Char) : List Char :=
  (s.reverse.dropWhile p).reverse

/-- Python str.strip(): remove leading and trailing whitespace. -/
def pyStrip (s : List Char) : List Char :=
  dropTrailing pyIsSpace (s.dropWhile pyIsSpace)

/-! ## The missing-package detector of compile_pdf (tailor.py lines 747-761)

The Python code scans the combined stdout+stderr of a probing pdflatex run
with re.search against five patterns of the form
r"File `NAME.sty' not found" and collects the names whose pattern occurs.
In those regexes every character is literal except the dot, which matches
any character other than a newline.  A pattern element is modelled as
`Option Char`: `some c` is a literal character, `none` is the dot. -/

/-- The regex r"File `NAME.sty' not found" as a list of pattern elements. -/
def styPattern (name : List Char) : List (Option Char) :=
  (("File ".toList ++ [backtickChar] ++ name).map some) ++ [none] ++
    (("sty".toList ++ [apoChar] ++ " not found".toList).map some)

/-- The literal diagnostic text "File `NAME.sty' not found" (dot included),
i.e. the textual form of the pattern. -/
def styLiteral (name : List Char) : List Char :=
  "File ".toList ++ [backtickChar] ++ name ++ ('.' :: "sty".toList) ++
    (apoChar :: " not found".toList)

/-- Does the pattern match starting exactly at the head of s? -/
def patMatchesAt : List (Option Char) → List Char → Bool
  | [], _ => true
  | _ :: _, [] => false
  | some c :: ps, x :: xs => x = c && patMatchesAt ps xs
  | none :: ps, x :: xs => !(x = '\n') && patMatchesAt ps xs

/-- Python re.search: does the pattern match at some position of s? -/
def reSearchPat (p : List (Option Char)) (s : List Char) : Bool :=
  match s with
  | [] => patMatchesAt p []
  | _ :: xs => patMatchesAt p s || reSearchPat p xs

/-- The package_patterns table of compile_pdf (tailor.py lines 751-757),
in source order. -/
def package_patterns : List (String × List (Option Char)) :=
  [("fontawesome", styPattern "fontawesome".toList),
   ("xcolor", styPattern "xcolor".toList),
   ("hyperref", styPattern "hyperref".toList),
   ("geometry", styPattern "geometry".toList),
   ("titlesec", styPattern "titlesec".toList)]

/-- The missing-package detection loop of compile_pdf (lines 759-761):
collect, in table order, the names whose pattern occurs in the output. -/
def detectMissingPackages (output : List Char) : List String :=
  (package_patterns.filter (fun pr => reSearchPat pr.2 output)).map Prod.fst

/-! ### Lemmas about the detector -/

theorem patMatchesAt_map_some_append (xs : List Char) (ps : List (Option Char))
    (r : List Char) :
    patMatchesAt (xs.map some ++ ps) (xs ++ r) = patMatchesAt ps r := by
  induction xs with
  | nil => rfl
  | cons c cs ih => simp [patMatchesAt, ih]

theorem patMatchesAt_styPattern (name : List Char) (r : List Char) :
    patMatchesAt (styPattern name) (styLiteral name ++ r) = true := by
  have h1 := patMatchesAt_map_some_append
    ("File ".toList ++ [backtickChar] ++ name)
    ([none] ++ (("sty".toList ++ [apoChar] ++ " not found".toList).map some))
    ('.' :: ("sty".toList ++ [apoChar] ++ " not found".toList ++ r))
  have h2 := patMatchesAt_map_some_append
    ("sty".toList ++ [apoChar] ++ " not found".toList) [] r
  simp only [styPattern, styLiteral]
  rw [show ("File ".toList ++ [backtickChar] ++ name ++ ('.' :: "sty".toList) ++
      (apoChar :: " not found".toList)) ++ r =
      ("File ".toList ++ [backtickChar] ++ name) ++
      ('.' :: ("sty".toList ++ [apoChar] ++ " not found".toList ++ r)) by
    simp]
  rw [List.append_assoc ((("File ".toList ++ [backtickChar] ++ name)).map some)]
  rw [h1]
  have hdot : patMatchesAt
      ([none] ++ ("sty".toList ++ [apoChar] ++ " not found".toList).map some)
      ('.' :: ("sty".toList ++ [apoChar] ++ " not found".toList ++ r)) =
      patMatchesAt (("sty".toList ++ [apoChar] ++ " not found".toList).map some)
        ("sty".toList ++ [apoChar] ++ " not found".toList ++ r) := by
    simp [patMatchesAt]
  rw [hdot]
  have := patMatchesAt_map_some_append
    ("sty".toList ++ [apoChar] ++ " not found".toList)
    [] r
  rw [show (("sty".toList ++ [apoChar] ++ " not found".toList)).map some =
      (("sty".toList ++ [apoChar] ++ " not found".toList)).map some ++ [] by simp]
  rw [List.append_assoc "sty".toList] at this ⊢
  rw [List.append_assoc "sty".toList]
  exact this.trans rfl

theorem reSearchPat_of_matchHere (p : List (Option Char)) :
    ∀ s, patMatchesAt p s = true → reSearchPat p s = true := by
  intro s h
  cases s with
  | nil => simpa [reSearchPat] using h
  | cons x xs => simp [reSearchPat, h]

theorem reSearchPat_append_left (p : List (Option Char)) :
    ∀ u s, reSearchPat p s = true → reSearchPat p (u ++ s) = true := by
  intro u
  induction u with
  | nil => intro s h; simpa using h
  | cons c cs ih =>
    intro s h
    show (patMatchesAt (p) (c :: (cs ++ s)) || reSearchPat p (cs ++ s)) = true
    rw [ih s h]
    simp

theorem reSearchPat_of_literal (name : List Char) (u v : List Char) :
    reSearchPat (styPattern name) (u ++ styLiteral name ++ v) = true := by
  rw [List.append_assoc]
  apply reSearchPat_append_left
  apply reSearchPat_of_matchHere
  exact patMatchesAt_styPattern name v

theorem mem_detect_of_search (name : String) (pat : List (Option Char))
    (output : List Char) (hmem : (name, pat) ∈ package_patterns)
    (hs : reSearchPat pat output = true) :
    name ∈ detectMissingPackages output := by
  unfold detectMissingPackages
  exact List.mem_map.mpr ⟨(name, pat), List.mem_filter.mpr ⟨hmem, hs⟩, rfl⟩

/-- Claim C6: the dependency detector of compile_pdf is a total function of
the captured output text; if the output contains the literal diagnostic
text of a registered signature then that signature name is reported
missing, and if no registered pattern occurs anywhere in the output then
the reported set is empty. -/
theorem C6_detector_total_sound (output : List Char) :
    (∀ name pat, (name, pat) ∈ package_patterns →
      (∃ u v, output = u ++ styLiteral name.toList ++ v) →
        name ∈ detectMissingPackages output) ∧
    ((∀ pr ∈ package_patterns, reSearchPat pr.2 output = false) →
      detectMissingPackages output = []) := by
  constructor
  · intro name pat hmem hocc
    obtain ⟨u, v, rfl⟩ := hocc
    have hpat : pat = styPattern name.toList := by
      simp only [package_patterns, List.mem_cons, List.not_mem_nil,
        or_false] at hmem
      rcases hmem with h | h | h | h | h <;>
        · injection h with h1 h2
          subst h1; subst h2; rfl
    subst hpat
    exact mem_detect_of_search name _ _ hmem (reSearchPat_of_literal _ u v)
  · intro hnone
    unfold detectMissingPackages
    have : package_patterns.filter (fun pr => reSearchPat pr.2 output) = [] := by
      apply List.filter_eq_nil_iff.mpr
      intro pr hpr
      simp [hnone pr hpr]
    rw [this]
    rfl

/-- Witness for C6 at concrete inputs: an output containing the xcolor
diagnostic reports xcolor missing, and an output matching no pattern
reports nothing. -/
theorem C6_witness :
    "xcolor" ∈ detectMissingPackages
      ("AB".toList ++ styLiteral "xcolor".toList ++ "CD".toList) ∧
    detectMissingPackages "hello world".toList = [] := by
  constructor
  · exact (C6_detector_total_sound _).1 "xcolor" (styPattern "xcolor".toList)
      (by decide) ⟨"AB".toList, "CD".toList, rfl⟩
  · exact (C6_detector_total_sound _).2 (by decide)

/-! ## clean_latex_content (tailor.py lines 691-708)

The Python function applies, in order:
  re.sub(r"^```latex\s*", "", content)    -- anchored at string start
  re.sub(r"^```\s*", "", content)         -- anchored at string start
  re.sub(r"\s*```$", "", content)         -- anchored at string end
  content.replace(backtick, "")
and then, when the stripped content does not start with \documentclass,
re.search(r"(\documentclass.*)", content, re.DOTALL) replaces the content
with the text from the first \documentclass occurrence to the end. -/

/-- Three backticks. -/
def ticks3 : List Char := [backtickChar, backtickChar, backtickChar]

/-- The literal prefix matched by r"^```latex". -/
def lead8 : List Char := ticks3 ++ "latex".toList

/-- The literal string \documentclass. -/
def docclassL : List Char := "\\documentclass".toList

/-- re.sub(r"^```latex\s*", "", s): without re.MULTILINE the anchor only
matches at the start, so this removes a leading "```latex" plus the
following whitespace run (the greedy \s*), if present. -/
def subLeadTicksLatex (s : List Char) : List Char :=
  if lead8.isPrefixOf s then (s.drop 8).dropWhile pyIsSpace else s

/-- re.sub(r"^```\s*", "", s). -/
def subLeadTicks (s : List Char) : List Char :=
  if ticks3.isPrefixOf s then (s.drop 3).dropWhile pyIsSpace else s

/-- Match of r"\s*```$" starting exactly at the current position: the
greedy \s* can only stop at a non-whitespace character, and the backticks
are not whitespace, so the run of whitespace followed by "```" must be
followed by the end of the string or by a final newline ($ without
re.MULTILINE).  Returns the text left after the matched span. -/
def ticksEndHere (s : List Char) : Option (List Char) :=
  if ticks3.isPrefixOf (s.dropWhile pyIsSpace) &&
      ((s.dropWhile pyIsSpace).drop 3 == ([] : List Char) ||
        (s.dropWhile pyIsSpace).drop 3 == ['\n'])
  then some ((s.dropWhile pyIsSpace).drop 3) else none

/-- re.sub(r"\s*```$", "", s): scan left to right for the leftmost match
and delete it; after a match only "" or a newline remains, in which the
pattern cannot match again. -/
def subEndTicks : List Char → List Char
  | [] => []
  | c :: rest => (ticksEndHere (c :: rest)).getD (c :: subEndTicks rest)

/-- re.search(r"(\documentclass.*)", s, re.DOTALL): the captured group is
the suffix of s beginning at the first occurrence of \documentclass. -/
def findDocclass : List Char → Option (List Char)
  | [] => none
  | c :: rest =>
    if docclassL.isPrefixOf (c :: rest) then some (c :: rest)
    else findDocclass rest

/-- The composition of the four character-level clean-up steps of
clean_latex_content (lines 694-699). -/
def cleanedCore (content : List Char) : List Char :=
  (subEndTicks (subLeadTicks (subLeadTicksLatex content))).filter
    (fun c => c ≠ backtickChar)

/-- clean_latex_content (tailor.py lines 691-708). -/
def clean_latex_content (content : List Char) : List Char :=
  if docclassL.isPrefixOf (pyStrip (cleanedCore content)) then cleanedCore content
  else
    match findDocclass (cleanedCore content) with
    | some t => t
    | none => cleanedCore content

/-! ### Substring machinery -/

/-- t occurs as a contiguous substring of s. -/
def ContainsL (t s : List Char) : Prop := ∃ u v, s = u ++ t ++ v

theorem isPrefixOf_iff_exists : ∀ (l₁ l₂ : List Char),
    l₁.isPrefixOf l₂ = true ↔ ∃ t, l₂ = l₁ ++ t
  | [], l₂ => by simp [List.isPrefixOf]
  | c :: cs, [] => by simp [List.isPrefixOf]
  | c :: cs, x :: xs => by
    simp only [List.isPrefixOf, Bool.and_eq_true, beq_iff_eq, List.cons_append]
    constructor
    · rintro ⟨rfl, h⟩
      obtain ⟨t, rfl⟩ := (isPrefixOf_iff_exists cs xs).mp h
      exact ⟨t, rfl⟩
    · rintro ⟨t, h⟩
      injection h with h1 h2
      exact ⟨h1.symm, (isPrefixOf_iff_exists cs xs).mpr ⟨t, h2⟩⟩

/-- An occurrence of hc :: occT in a ++ b with hc nowhere in a lies in b. -/
theorem containsL_of_removed_front (hc : Char) (occT a b : List Char)
    (hna : hc ∉ a) (h : ContainsL (hc :: occT) (a ++ b)) :
    ContainsL (hc :: occT) b := by
  obtain ⟨u, v, huv⟩ := h
  rw [List.append_assoc] at huv
  rcases List.append_eq_append_iff.mp huv with ⟨a', _, h2⟩ | ⟨c', h1, h2⟩
  · exact ⟨a', v, by rw [h2, List.append_assoc]⟩
  · cases c' with
    | nil => exact ⟨[], v, by simpa using h2.symm⟩
    | cons x c'' =>
      rw [List.cons_append, List.cons_append] at h2
      injection h2 with hx _
      exact absurd (h1 ▸ List.mem_append_right u (hx ▸ List.mem_cons_self x c''))
        hna

/-- An occurrence of occ in b ++ sp ++ t, where no character of sp occurs
in occ, survives the deletion of the middle part sp. -/
theorem containsL_mid (occ b sp t : List Char) (hne : occ ≠ [])
    (hdisj : ∀ c ∈ sp, c ∉ occ) (h : ContainsL occ (b ++ sp ++ t)) :
    ContainsL occ (b ++ t) := by
  obtain ⟨u, v, huv⟩ := h
  rw [List.append_assoc, List.append_assoc] at huv
  rcases List.append_eq_append_iff.mp huv with ⟨b', _, h2⟩ | ⟨c', h1, h2⟩
  · -- the occurrence lies inside sp ++ t
    obtain ⟨hc, occT, rfl⟩ : ∃ hc occT, occ = hc :: occT := by
      cases occ with
      | nil => exact absurd rfl hne
      | cons x xs => exact ⟨x, xs, rfl⟩
    have hsp : ContainsL (hc :: occT) (sp ++ t) := ⟨b', v, by
      rw [h2, List.append_assoc]⟩
    have hna : hc ∉ sp := fun hmem => hdisj hc hmem (List.mem_cons_self hc occT)
    obtain ⟨u', v', hb⟩ := containsL_of_removed_front hc occT sp t hna hsp
    exact ⟨b ++ u', v', by rw [hb]; simp⟩
  · rcases List.append_eq_append_iff.mp h2 with ⟨o', g1, _⟩ | ⟨k, g1, g2⟩
    · exact ⟨u, o' ++ t, by rw [h1, g1]; simp⟩
    · cases k with
      | nil =>
        rw [List.append_nil] at g1
        exact ⟨u, t, by rw [h1, ← g1]⟩
      | cons x k' =>
        cases sp with
        | nil => exact ⟨u, v, by simpa [List.append_assoc] using huv⟩
        | cons y sp' =>
          rw [List.cons_append] at g2
          injection g2 with hy _
          exact absurd (g1 ▸ List.mem_append_right c'
            (List.mem_cons_self x k')) (fun hx =>
              hdisj y (List.mem_cons_self y sp') (hy ▸ hx))

/-! ### Character facts about \documentclass -/

theorem docclassL_eq : docclassL = '\\' :: "documentclass".toList := by decide

theorem docclassL_ne_nil : docclassL ≠ [] := by decide

theorem backslash_not_space : pyIsSpace '\\' = false := by decide

theorem backslash_not_in_lead8 : '\\' ∉ lead8 := by decide

theorem backslash_not_in_ticks3 : '\\' ∉ ticks3 := by decide

theorem docclassL_no_space : ∀ c ∈ docclassL, pyIsSpace c = false := by decide

theorem docclassL_no_backtick : backtickChar ∉ docclassL := by decide

/-! ### The occurrence of \documentclass survives each clean-up step -/

theorem containsL_subLeadTicksLatex (s : List Char)
    (h : ContainsL docclassL s) : ContainsL docclassL (subLeadTicksLatex s) := by
  unfold subLeadTicksLatex
  split
  case isTrue hp =>
    obtain ⟨w, rfl⟩ := (isPrefixOf_iff_exists _ _).mp hp
    have hdrop : (lead8 ++ w).drop 8 = w := by
      have h8 : (8 : Nat) = lead8.length := by decide
      rw [h8]
      exact List.drop_left lead8 w
    rw [hdrop]
    have hw : w = w.takeWhile pyIsSpace ++ w.dropWhile pyIsSpace :=
      (List.takeWhile_append_dropWhile pyIsSpace w).symm
    have hs : lead8 ++ w =
        (lead8 ++ w.takeWhile pyIsSpace) ++ w.dropWhile pyIsSpace := by
      conv_lhs => rw [hw]
      rw [List.append_assoc]
    rw [hs] at h
    rw [docclassL_eq] at h ⊢
    refine containsL_of_removed_front '\\' _ _ _ ?_ h
    intro hmem
    rcases List.mem_append.mp hmem with h8 | hws
    · exact backslash_not_in_lead8 h8
    · have := List.mem_takeWhile_imp hws
      rw [backslash_not_space] at this
      exact Bool.noConfusion this
  case isFalse => exact h

theorem containsL_subLeadTicks (s : List Char)
    (h : ContainsL docclassL s) : ContainsL docclassL (subLeadTicks s) := by
  unfold subLeadTicks
  split
  case isTrue hp =>
    obtain ⟨w, rfl⟩ := (isPrefixOf_iff_exists _ _).mp hp
    have hdrop : (ticks3 ++ w).drop 3 = w := by
      have h3 : (3 : Nat) = ticks3.length := by decide
      rw [h3]
      exact List.drop_left ticks3 w
    rw [hdrop]
    have hw : w = w.takeWhile pyIsSpace ++ w.dropWhile pyIsSpace :=
      (List.takeWhile_append_dropWhile pyIsSpace w).symm
    have hs : ticks3 ++ w =
        (ticks3 ++ w.takeWhile pyIsSpace) ++ w.dropWhile pyIsSpace := by
      conv_lhs => rw [hw]
      rw [List.append_assoc]
    rw [hs] at h
    rw [docclassL_eq] at h ⊢
    refine containsL_of_removed_front '\\' _ _ _ ?_ h
    intro hmem
    rcases List.mem_append.mp hmem with h3 | hws
    · exact backslash_not_in_ticks3 h3
    · have := List.mem_takeWhile_imp hws
      rw [backslash_not_space] at this
      exact Bool.noConfusion this
  case isFalse => exact h

/-- Structure of one subEndTicks rewrite: either nothing matched, or a
contiguous span of whitespace and backticks was deleted. -/
theorem subEndTicks_decomp : ∀ s : List Char, subEndTicks s = s ∨
    ∃ b sp t, s = b ++ sp ++ t ∧ subEndTicks s = b ++ t ∧
      ∀ c ∈ sp, pyIsSpace c = true ∨ c = backtickChar := by
  intro s
  induction s with
  | nil => left; rfl
  | cons c rest ih =>
    rcases hte : ticksEndHere (c :: rest) with _ | t
    · have hstep : subEndTicks (c :: rest) = c :: subEndTicks rest := by
        rw [subEndTicks, hte]
        rfl
      rcases ih with h | ⟨b, sp, t, h1, h2, h3⟩
      · left; rw [hstep, h]
      · right
        exact ⟨c :: b, sp, t, by rw [List.cons_append, List.cons_append, ← h1],
          by rw [hstep, h2, List.cons_append], h3⟩
    · have hstep : subEndTicks (c :: rest) = t := by
        rw [subEndTicks, hte]
        rfl
      right
      unfold ticksEndHere at hte
      split at hte
      case isTrue hcond =>
        injection hte with hteq
        rw [Bool.and_eq_true] at hcond
        obtain ⟨w, hw⟩ := (isPrefixOf_iff_exists _ _).mp hcond.1
        have hwt : t = w := by
          rw [← hteq, hw]
          have h3 : (3 : Nat) = ticks3.length := by decide
          rw [h3]
          exact List.drop_left ticks3 w
        refine ⟨[], (c :: rest).takeWhile pyIsSpace ++ ticks3, t, ?_, hstep, ?_⟩
        · have hsplit : c :: rest =
              (c :: rest).takeWhile pyIsSpace ++ (c :: rest).dropWhile pyIsSpace :=
            (List.takeWhile_append_dropWhile pyIsSpace (c :: rest)).symm
          rw [List.nil_append, List.append_assoc]
          conv_lhs => rw [hsplit]
          rw [hw, hwt]
        · intro x hx
          rcases List.mem_append.mp hx with hws | h3
          · exact Or.inl (List.mem_takeWhile_imp hws)
          · right
            have hx3 : x = backtickChar ∨ x = backtickChar ∨ x = backtickChar := by
              simpa [ticks3] using h3
            rcases hx3 with h | h | h <;> exact h
      case isFalse => exact absurd hte (Option.noConfusion)

theorem containsL_subEndTicks (s : List Char)
    (h : ContainsL docclassL s) : ContainsL docclassL (subEndTicks s) := by
  rcases subEndTicks_decomp s with he | ⟨b, sp, t, h1, h2, h3⟩
  · rw [he]; exact h
  · rw [h2]
    refine containsL_mid docclassL b sp t docclassL_ne_nil ?_ (h1 ▸ h)
    intro c hcsp hcocc
    rcases h3 c hcsp with hws | hbt
    · have := docclassL_no_space c hcocc
      rw [this] at hws
      exact Bool.noConfusion hws
    · exact docclassL_no_backtick (hbt ▸ hcocc)

theorem containsL_filter_backtick (s : List Char)
    (h : ContainsL docclassL s) :
    ContainsL docclassL (s.filter (fun c => c ≠ backtickChar)) := by
  obtain ⟨u, v, rfl⟩ := h
  refine ⟨u.filter (fun c => c ≠ backtickChar), v.filter (fun c => c ≠ backtickChar), ?_⟩
  rw [List.append_assoc, List.filter_append, List.filter_append]
  have hself : docclassL.filter (fun c => c ≠ backtickChar) = docclassL := by decide
  rw [hself, List.append_assoc]

theorem containsL_cleanedCore (s : List Char) (h : ContainsL docclassL s) :
    ContainsL docclassL (cleanedCore s) :=
  containsL_filter_backtick _ (containsL_subEndTicks _
    (containsL_subLeadTicks _ (containsL_subLeadTicksLatex _ h)))

/-! ### findDocclass -/

theorem findDocclass_suffix : ∀ s t : List Char,
    findDocclass s = some t → ∃ u, s = u ++ t
  | [], t => by simp [findDocclass]
  | c :: rest, t => by
    intro h
    unfold findDocclass at h
    split at h
    · exact ⟨[], by rw [List.nil_append]; exact Option.some.inj h⟩
    · obtain ⟨u, hu⟩ := findDocclass_suffix rest t h
      exact ⟨c :: u, by rw [List.cons_append, hu]⟩

theorem findDocclass_of_contains : ∀ s : List Char, ContainsL docclassL s →
    ∃ t, findDocclass s = some t ∧ docclassL.isPrefixOf t = true
  | [] => by
    rintro ⟨u, v, huv⟩
    exact absurd huv.symm (by simp [docclassL])
  | c :: rest => by
    rintro ⟨u, v, huv⟩
    unfold findDocclass
    split
    case isTrue hp => exact ⟨c :: rest, rfl, hp⟩
    case isFalse hnp =>
      cases u with
      | nil =>
        rw [List.nil_append] at huv
        exact absurd ((isPrefixOf_iff_exists _ _).mpr ⟨v, huv⟩) hnp
      | cons x u' =>
        rw [List.cons_append] at huv
        injection huv with _ hrest
        exact findDocclass_of_contains rest ⟨u', v, hrest⟩

/-! ### pyStrip bridging -/

theorem dropTrailing_append (p : Char → Bool) (m : List Char) :
    m = dropTrailing p m ++ (m.reverse.takeWhile p).reverse := by
  unfold dropTrailing
  rw [← List.reverse_append, List.takeWhile_append_dropWhile, List.reverse_reverse]

theorem dropWhile_eq_strip_append (l : List Char) :
    ∃ w, l.dropWhile pyIsSpace = pyStrip l ++ w :=
  ⟨((l.dropWhile pyIsSpace).reverse.takeWhile pyIsSpace).reverse,
    dropTrailing_append pyIsSpace (l.dropWhile pyIsSpace)⟩

theorem docclass_under_strip (l : List Char)
    (h : docclassL.isPrefixOf (pyStrip l) = true) :
    docclassL.isPrefixOf (l.dropWhile pyIsSpace) = true := by
  obtain ⟨t, ht⟩ := (isPrefixOf_iff_exists _ _).mp h
  obtain ⟨w, hw⟩ := dropWhile_eq_strip_append l
  exact (isPrefixOf_iff_exists _ _).mpr
    ⟨t ++ w, by rw [hw, ht, List.append_assoc]⟩

theorem dropWhile_of_docclass_head (t : List Char)
    (h : docclassL.isPrefixOf t = true) : t.dropWhile pyIsSpace = t := by
  obtain ⟨w, rfl⟩ := (isPrefixOf_iff_exists _ _).mp h
  rw [docclassL_eq, List.cons_append, List.dropWhile_cons]
  rw [backslash_not_space]
  simp

/-- Claim C8: for every input string, the output of clean_latex_content
contains no backtick character, and if the input contains the substring
\documentclass then the output begins, after leading whitespace, at an
occurrence of \documentclass. -/
theorem C8_clean_latex_content (input : List Char) :
    (∀ c ∈ clean_latex_content input, c ≠ backtickChar) ∧
    (ContainsL docclassL input →
      docclassL.isPrefixOf
        ((clean_latex_content input).dropWhile pyIsSpace) = true) := by
  constructor
  · intro c hc
    have hmem : c ∈ cleanedCore input := by
      unfold clean_latex_content at hc
      split at hc
      · exact hc
      · split at hc
        case h_1 t heq =>
          obtain ⟨u, hu⟩ := findDocclass_suffix _ _ heq
          rw [hu]
          exact List.mem_append_right u hc
        case h_2 => exact hc
    have := List.mem_filter.mp hmem
    simpa using this.2
  · intro hin
    have h4 : ContainsL docclassL (cleanedCore input) :=
      containsL_cleanedCore input hin
    unfold clean_latex_content
    split
    case isTrue hp => exact docclass_under_strip _ hp
    case isFalse hnp =>
      obtain ⟨t, hft, hpt⟩ := findDocclass_of_contains _ h4
      rw [hft]
      rw [dropWhile_of_docclass_head t hpt]
      exact hpt

/-- Witness for C8 at a concrete input containing backticks, a markdown
fence and a \documentclass occurrence. -/
theorem C8_witness :
    (∀ c ∈ clean_latex_content
      ("```latex ".toList ++ docclassL ++ " {article} `x".toList),
        c ≠ backtickChar) ∧
    docclassL.isPrefixOf
      ((clean_latex_content
        ("```latex ".toList ++ docclassL ++ " {article} `x".toList)).dropWhile
          pyIsSpace) = true :=
  ⟨(C8_clean_latex_content _).1,
   (C8_clean_latex_content _).2 ⟨"```latex ".toList, " {article} `x".toList, rfl⟩⟩

/-! ## extract_subject_from_email (tailor.py lines 1016-1030)

The Python function first runs
  re.search(r"^(?:Subject|SUBJECT):\s*(.+)$", email_content, re.MULTILINE)
and returns group(1).strip() on a match; otherwise it returns the first
stripped line that is non-blank and does not start with "From:", and
otherwise the constant "Application for Position".

In the regex, \s also matches newlines, while . and $ are line-oriented:
the engine first lets the greedy \s* run as far as possible and backtracks
it until (.+)$ can match, so the captured group is the first run of
non-newline characters reachable this way — which can consist of
whitespace only (e.g. for input "Subject: " at the end of the string). -/

/-- (.+)$ at the current position: needs one non-newline character; the
greedy .+ then runs to the next newline or the end of the string, where $
(with re.MULTILINE) matches. -/
def dotPlusHere (s : List Char) : Option (List Char) :=
  match s with
  | [] => none
  | c :: _ => if c = '\n' then none else some (s.takeWhile (fun x => x ≠ '\n'))

/-- \s*(.+)$ at the current position, with the greedy preference of the
Python engine: longer \s* prefixes are tried first. -/
def subjTail : List Char → Option (List Char)
  | [] => none
  | c :: rest =>
    if pyIsSpace c then
      match subjTail rest with
      | some cap => some cap
      | none => dotPlusHere (c :: rest)
    else dotPlusHere (c :: rest)

/-- The literal "Subject:". -/
def subjectMarker : List Char := "Subject:".toList

/-- The literal "SUBJECT:". -/
def subjectMarkerUpper : List Char := "SUBJECT:".toList

/-- re.search of r"^(?:Subject|SUBJECT):\s*(.+)$" with re.MULTILINE:
scan the positions left to right; ^ matches at the start of the string and
right after each newline; at such positions try the marker and then the
tail pattern. -/
def searchSubject (atStart : Bool) (s : List Char) : Option (List Char) :=
  match s with
  | [] => none
  | c :: rest =>
    if atStart then
      match
        (if subjectMarker.isPrefixOf (c :: rest)
         then subjTail ((c :: rest).drop 8) else none) with
      | some cap => some cap
      | none =>
        match
          (if subjectMarkerUpper.isPrefixOf (c :: rest)
           then subjTail ((c :: rest).drop 8) else none) with
        | some cap => some cap
        | none => searchSubject (c = '\n') rest
    else searchSubject (c = '\n') rest

/-- Python str.split on a newline. -/
def splitOnNl : List Char → List (List Char)
  | [] => [[]]
  | c :: rest =>
    if c = '\n' then [] :: splitOnNl rest
    else
      match splitOnNl rest with
      | [] => [[c]]
      | l :: ls => (c :: l) :: ls

/-- extract_subject_from_email (tailor.py lines 1016-1030). -/
def extract_subject_from_email (email : List Char) : List Char :=
  match searchSubject true email with
  | some cap => pyStrip cap
  | none =>
    match (splitOnNl email).find?
      (fun l => !(pyStrip l == ([] : List Char)) &&
        !("From:".toList.isPrefixOf l)) with
    | some l => pyStrip l
    | none => "Application for Position".toList

/-- Counterexample to claim C9 as stated: on the input "Subject: " the
function returns the empty string, not a non-empty subject — the greedy
\s* backtracks one character, (.+) captures the lone space, and .strip()
erases it. -/
theorem C9_counterexample :
    extract_subject_from_email "Subject: ".toList = [] := by decide

/-- Claim C9 as amended: extract_subject_from_email is total; when the
Subject regex matches it returns the stripped captured group (which can be
empty when only whitespace follows the marker at the end of the input),
and otherwise it returns a non-empty string (the first stripped non-blank
line not starting with "From:", or the fixed fallback). -/
theorem C9_subject_amended (email : List Char) :
    (∀ cap, searchSubject true email = some cap →
      extract_subject_from_email email = pyStrip cap) ∧
    (searchSubject true email = none →
      extract_subject_from_email email ≠ []) := by
  constructor
  · intro cap h
    unfold extract_subject_from_email
    rw [h]
  · intro h
    unfold extract_subject_from_email
    rw [h]
    show (match (splitOnNl email).find?
      (fun l => !(pyStrip l == ([] : List Char)) &&
        !("From:".toList.isPrefixOf l)) with
      | some l => pyStrip l
      | none => "Application for Position".toList) ≠ []
    rcases hf : (splitOnNl email).find?
      (fun l => !(pyStrip l == ([] : List Char)) &&
        !("From:".toList.isPrefixOf l)) with _ | l
    · decide
    · show pyStrip l ≠ []
      have hp := List.find?_some hf
      rw [Bool.and_eq_true] at hp
      intro hnil
      rw [hnil] at hp
      simp at hp

/-- Witness for the amended C9 at concrete inputs: a matching Subject
header yields its stripped capture, and an input with no Subject header
yields a non-empty subject. -/
theorem C9_witness :
    extract_subject_from_email "Subject: Interview request\nHi".toList =
      pyStrip "Interview request".toList ∧
    extract_subject_from_email "No subject here".toList ≠ [] :=
  ⟨(C9_subject_amended _).1 "Interview request".toList (by decide),
   (C9_subject_amended _).2 (by decide)⟩

/-! ## A small regex engine for the substitution patterns of
extract_text_from_latex (tailor.py lines 649-688)

The patterns appearing there use only literals, the character classes
. (any non-newline), [a-zA-Z] and \s, lazy and greedy stars, a greedy
plus, a greedy option, one alternation and capture groups.  The matcher
enumerates the (remaining suffix, captures) pairs of a match attempt in
the backtracking preference order of the Python engine; the head of the
list is the match Python uses. -/

/-- Opening brace character. -/
def obraceChar : Char := Char.ofNat 123

/-- Closing brace character. -/
def cbraceChar : Char := Char.ofNat 125

/-- The regex class [a-zA-Z]. -/
def isAsciiLetter (c : Char) : Bool :=
  ('a' ≤ c && c ≤ 'z') || ('A' ≤ c && c ≤ 'Z')

/-- The regex class . without re.DOTALL: any character but a newline. -/
def anyNoNl (c : Char) : Bool := c ≠ '\n'

/-- Regular expressions over the constructs used by tailor.py.  Stars and
plus quantify only single-character classes, as in the source patterns. -/
inductive RE where
  | eps : RE
  | lit : Char → RE
  | starL : (Char → Bool) → RE
  | starG : (Char → Bool) → RE
  | plusG : (Char → Bool) → RE
  | seq : RE → RE → RE
  | opt : RE → RE
  | alt : RE → RE → RE
  | grp : Nat → RE → RE

/-- Suffixes reachable by consuming characters of class p, shortest
first (the preference order of a lazy star). -/
def lazySuffixes (p : Char → Bool) : List Char → List (List Char)
  | [] => [[]]
  | c :: rest => (c :: rest) :: (if p c then lazySuffixes p rest else [])

/-- Suffixes reachable by consuming at least one character of class p,
longest first (the preference order of a greedy plus). -/
def plusSuffixes (p : Char → Bool) (s : List Char) : List (List Char) :=
  match s with
  | [] => []
  | c :: rest => if p c then (lazySuffixes p rest).reverse else []

/-- Captured groups of one match attempt. -/
abbrev Caps : Type := List (Nat × List Char)

/-- All ways the expression can match a prefix of s, as
(remaining suffix, captures), in Python backtracking preference order. -/
def mtch : RE → List Char → List (List Char × Caps)
  | .eps, s => [(s, [])]
  | .lit c, s =>
    match s with
    | [] => []
    | x :: xs => if x = c then [(xs, [])] else []
  | .starL p, s => (lazySuffixes p s).map (fun r => (r, []))
  | .starG p, s => (lazySuffixes p s).reverse.map (fun r => (r, []))
  | .plusG p, s => (plusSuffixes p s).map (fun r => (r, []))
  | .seq a b, s =>
    (mtch a s).flatMap (fun pr =>
      (mtch b pr.1).map (fun qr => (qr.1, pr.2 ++ qr.2)))
  | .opt a, s => mtch a s ++ [(s, [])]
  | .alt a b, s => mtch a s ++ mtch b s
  | .grp i a, s =>
    (mtch a s).map (fun pr =>
      (pr.1, pr.2 ++ [(i, s.take (s.length - pr.1.length))]))

/-- One piece of a replacement template: literal text or a group
reference. -/
inductive TmplItem where
  | litT : List Char → TmplItem
  | ref : Nat → TmplItem

/-- Instantiate a replacement template with the captures of a match. -/
def renderTmpl (caps : Caps) : List TmplItem → List Char
  | [] => []
  | .litT l :: rest => l ++ renderTmpl caps rest
  | .ref i :: rest =>
    (((caps.find? (fun pr => pr.1 == i)).map Prod.snd).getD []) ++
      renderTmpl caps rest

/-- re.sub: scan left to right, replace the leftmost match using the
template, continue after it.  None of the source patterns can match the
empty string; the length guard only serves termination. -/
def reSubScan (r : RE) (tmpl : List TmplItem) (s : List Char) : List Char :=
  match s with
  | [] => []
  | c :: rest =>
    match (mtch r (c :: rest)).head? with
    | some (rem, caps) =>
      if h : rem.length < (c :: rest).length then
        renderTmpl caps tmpl ++ reSubScan r tmpl rem
      else c :: reSubScan r tmpl rest
    | none => c :: reSubScan r tmpl rest
termination_by s.length
decreasing_by
  all_goals first
  | exact h
  | simp

/-- Sequence a list of expressions. -/
def seqA (l : List RE) : RE := l.foldr RE.seq RE.eps

/-- A literal string as an expression. -/
def litSeq (s : List Char) : RE := seqA (s.map RE.lit)

/-- The fourteen substitutions of extract_text_from_latex, in source
order (tailor.py lines 655-682), each with its replacement template. -/
def latexSubs : List (RE × List TmplItem) :=
  [ (seqA [litSeq "\\documentclass".toList, RE.starL anyNoNl,
      RE.lit obraceChar, RE.starL anyNoNl, RE.lit cbraceChar], []),
    (seqA [litSeq "\\usepackage".toList, RE.starL anyNoNl,
      RE.lit obraceChar, RE.starL anyNoNl, RE.lit cbraceChar], []),
    (litSeq "\\begin{document}".toList, []),
    (litSeq "\\end{document}".toList, []),
    (litSeq "\\maketitle".toList, []),
    (seqA [RE.lit '\\', RE.plusG isAsciiLetter,
      RE.opt (RE.grp 1 (seqA [RE.lit '[', RE.starL anyNoNl, RE.lit ']'])),
      RE.grp 2 (seqA [RE.lit obraceChar, RE.starL anyNoNl,
        RE.lit cbraceChar])], [TmplItem.ref 2]),
    (seqA [RE.lit '%', RE.starG anyNoNl], []),
    (seqA [litSeq "\\section".toList, RE.opt (RE.lit '*'), RE.lit obraceChar,
      RE.grp 1 (RE.starL anyNoNl), RE.lit cbraceChar],
      [TmplItem.litT "\n\n".toList, TmplItem.ref 1, TmplItem.litT ":\n".toList]),
    (seqA [litSeq "\\subsection".toList, RE.opt (RE.lit '*'), RE.lit obraceChar,
      RE.grp 1 (RE.starL anyNoNl), RE.lit cbraceChar],
      [TmplItem.litT "\n".toList, TmplItem.ref 1, TmplItem.litT ":\n".toList]),
    (seqA [litSeq "\\item".toList, RE.starG pyIsSpace],
      [TmplItem.litT "\n- ".toList]),
    (seqA [RE.lit '\\', RE.plusG isAsciiLetter], []),
    (RE.alt (RE.lit obraceChar) (RE.lit cbraceChar), []),
    (RE.plusG pyIsSpace, [TmplItem.litT " ".toList]),
    (seqA [RE.lit '\n', RE.starG pyIsSpace, RE.lit '\n'],
      [TmplItem.litT "\n\n".toList]) ]

/-- The composite of the fourteen substitutions. -/
def applyLatexSubs (s : List Char) : List Char :=
  latexSubs.foldl (fun acc pr => reSubScan pr.1 pr.2 acc) s

/-- extract_text_from_latex (tailor.py lines 649-688): the substitutions,
then truncation of texts longer than 2000 characters to 1997 characters
plus "...", then str.strip(). -/
def extract_text_from_latex (latex : List Char) : List Char :=
  pyStrip (if 2000 < (applyLatexSubs latex).length
    then (applyLatexSubs latex).take 1997 ++ "...".toList
    else applyLatexSubs latex)

theorem pyStrip_length_le (s : List Char) : (pyStrip s).length ≤ s.length := by
  unfold pyStrip dropTrailing
  calc ((s.dropWhile pyIsSpace).reverse.dropWhile pyIsSpace).reverse.length
      = ((s.dropWhile pyIsSpace).reverse.dropWhile pyIsSpace).length := by
        rw [List.length_reverse]
    _ ≤ (s.dropWhile pyIsSpace).reverse.length :=
        (List.dropWhile_sublist _).length_le
    _ = (s.dropWhile pyIsSpace).length := by rw [List.length_reverse]
    _ ≤ s.length := (List.dropWhile_sublist _).length_le

/-- Claim C10: for every input string, the text returned by
extract_text_from_latex has length at most 2000: texts longer than 2000
characters after the substitutions are truncated to 1997 characters plus
"...", and the final strip only shortens. -/
theorem C10_extract_text_bounded (latex : List Char) :
    (extract_text_from_latex latex).length ≤ 2000 := by
  unfold extract_text_from_latex
  split
  case isTrue h =>
    refine le_trans (pyStrip_length_le _) ?_
    rw [List.length_append, List.length_take]
    have h3 : ("...".toList).length = 3 := by decide
    rw [h3]
    omega
  case isFalse h =>
    exact le_trans (pyStrip_length_le _) (by omega)

/-! ## remove_fontawesome (tailor.py lines 843-875)

After reading the file, the Python function applies
  re.sub(r"\usepackage(\[\w+\])?\{fontawesome\}", "", content)
and then thirteen literal substitutions replacing fontawesome icon
commands by plain-text labels, in the order of the replacements dict.
The text transformation (everything after the file read) is modelled
here. -/

/-- ASCII fragment of the Python regex class \w: letters, digits and the
underscore. -/
def pyIsWordChar (c : Char) : Bool :=
  isAsciiLetter c || ('0' ≤ c && c ≤ '9') || c = '_'

/-- After the optional [\w+] group of the usepackage pattern, does a
closing bracket followed by the literal fontawesome braces group follow?
(The greedy \w+ can only stop at a non-word character, and ] is not a
word character, so no backtracking arises inside the group.) -/
def closesWithFA (t1 : List Char) : Bool :=
  match t1.drop (t1.takeWhile pyIsWordChar).length with
  | ']' :: t3 => "{fontawesome}".toList.isPrefixOf t3
  | _ => false

/-- Match of r"\usepackage(\[\w+\])?\{fontawesome\}" at the head of s;
returns the number of characters consumed.  The greedy option prefers
the bracket group; if the group cannot be completed the engine retries
without it ("\usepackage" is 11 characters, "{fontawesome}" is 13). -/
def tryUsepkgFA (s : List Char) : Option Nat :=
  if "\\usepackage".toList.isPrefixOf s then
    match s.drop 11 with
    | '[' :: t1 =>
      if !((t1.takeWhile pyIsWordChar).isEmpty) && closesWithFA t1 then
        some (26 + (t1.takeWhile pyIsWordChar).length)
      else if "{fontawesome}".toList.isPrefixOf ('[' :: t1) then some 24
      else none
    | t => if "{fontawesome}".toList.isPrefixOf t then some 24 else none
  else none

/-- re.sub of the usepackage pattern with the empty replacement: remove
every occurrence, scanning left to right.  The first argument counts
characters of an already-matched span still to be skipped (0 while
scanning); a successful match of n characters skips the remaining n - 1
after the head. -/
def reSubUsepkgFA : Nat → List Char → List Char
  | _, [] => []
  | 0, c :: rest =>
    match tryUsepkgFA (c :: rest) with
    | some n => reSubUsepkgFA (n - 1) rest
    | none => c :: reSubUsepkgFA 0 rest
  | k + 1, _ :: rest => reSubUsepkgFA k rest

/-- Replace every occurrence of the literal pattern p :: ps by rep,
scanning left to right without overlap (re.sub with a literal pattern).
The first argument counts characters of an already-matched span still to
be skipped (0 while scanning). -/
def replaceAllLit (p : Char) (ps rep : List Char) : Nat → List Char → List Char
  | _, [] => []
  | 0, c :: rest =>
    if (p :: ps).isPrefixOf (c :: rest)
    then rep ++ replaceAllLit p ps rep ps.length rest
    else c :: replaceAllLit p ps rep 0 rest
  | k + 1, _ :: rest => replaceAllLit p ps rep k rest

/-- The replacements dict of remove_fontawesome (lines 853-867), in
source order; each pattern is a backslash followed by the listed name. -/
def faReplacements : List (List Char × List Char) :=
  [("faPhone".toList, "Phone:".toList),
   ("faEnvelope".toList, "Email:".toList),
   ("faGlobe".toList, "Website:".toList),
   ("faLinkedinSquare".toList, "LinkedIn:".toList),
   ("faGithub".toList, "GitHub:".toList),
   ("faTwitter".toList, "Twitter:".toList),
   ("faMobile".toList, "Mobile:".toList),
   ("faHome".toList, "Address:".toList),
   ("faMapMarker".toList, "Location:".toList),
   ("faCalendar".toList, "Date:".toList),
   ("faUser".toList, "User:".toList),
   ("faFile".toList, "File:".toList),
   ("faBook".toList, "Education:".toList)]

/-- The pure text transformation of remove_fontawesome: the usepackage
removal followed by the thirteen icon replacements in order. -/
def remove_fontawesome_transform (content : List Char) : List Char :=
  faReplacements.foldl
    (fun acc pr => replaceAllLit '\\' pr.1 pr.2 0 acc)
    (reSubUsepkgFA 0 content)

/-- Claim C7: the substitution transformation of remove_fontawesome is
deterministic in the two-run sense: it is a function of the document text
alone (no other state enters the embedding), so two applications to equal
inputs give byte-identical outputs. -/
theorem C7_remediator_deterministic (c₁ c₂ : List Char) (h : c₁ = c₂) :
    remove_fontawesome_transform c₁ = remove_fontawesome_transform c₂ := by
  rw [h]

/-- Witness for C7 at a concrete document: the two runs on the same input
agree (and the transformation indeed rewrites the document, removing the
usepackage line and replacing the icons). -/
theorem C7_witness :
    remove_fontawesome_transform
      "\\usepackage[scaled]{fontawesome}\n\\faPhone 123\n\\faBook X".toList =
    remove_fontawesome_transform
      "\\usepackage[scaled]{fontawesome}\n\\faPhone 123\n\\faBook X".toList ∧
    remove_fontawesome_transform
      "\\usepackage[scaled]{fontawesome}\n\\faPhone 123\n\\faBook X".toList =
      "\nPhone: 123\nEducation: X".toList :=
  ⟨C7_remediator_deterministic _ _ rfl, by decide⟩

/-! ## compile_pdf (tailor.py lines 721-840)

The function drives the external toolchain:
  1. "pdflatex --version" (line 731); failure raises RuntimeError.
  2. A probing pdflatex run (line 739); its stdout+stderr is scanned for
     the package_patterns signatures.
  3. If packages are missing: a tlmgr availability check (line 771), then
     either per-package "tlmgr install" attempts whose failures are only
     printed (lines 777-785), or — with tlmgr unavailable — the
     interactive fontawesome offer (lines 794-804) and a
     raise RuntimeError("Required LaTeX packages are missing") (line 806).
     The whole probing block sits in a try whose
     "except Exception" (line 807) only prints, so that RuntimeError and
     any exception of the recursive compile_pdf call are swallowed and
     control falls through to the compiling passes.  Only SystemExit
     (write_file calls sys.exit(1) on a write failure, line 718) escapes.
  4. Two compiling pdflatex passes with -halt-on-error (lines 812-825);
     a non-zero exit raises RuntimeError carrying the last 500 characters
     of stderr-if-nonempty-else-stdout, rewrapped by the except at
     line 839.
  5. Cleanup of .aux/.log/.out intermediates (best effort) and, when the
     derived pdf path differs from the requested output path and the file
     exists, os.replace moves it (lines 827-837).  A missing artifact is
     not an error: the function simply returns.

External effects are supplied by a CompileEnv; the outcome of the
recursive compile_pdf invocation on the fontawesome-stripped document is
supplied as an oracle field (recResult), since the claims under study
concern non-recursive executions. -/

/-- Result of one external process invocation (subprocess.run with
capture_output): exit code and captured streams. -/
structure ProcResult where
  exitCode : Int
  stdout : List Char
  stderr : List Char
deriving DecidableEq

/-- The external actions compile_pdf can take, in order of occurrence. -/
inductive ProcCall where
  | versionCheck
  | probePass
  | tlmgrCheck
  | tlmgrInstall (pkg : String)
  | recursiveCompile
  | compilePass (i : Nat)
  | moveArtifact
deriving DecidableEq

/-- Python control-flow outcome: a normal return, a raised exception
(caught by "except Exception"), or SystemExit from sys.exit — which
"except Exception" does not catch. -/
inductive PyResult (α : Type) where
  | ok : α → PyResult α
  | exn : List Char → PyResult α
  | sysExit : Nat → PyResult α
deriving DecidableEq

/-- Everything the external world decides during one compile_pdf call. -/
structure CompileEnv where
  pdflatexOk : Bool
  probe : ProcResult
  tlmgrOk : Bool
  installOk : String → Bool
  shouldModify : List Char
  faReadOk : Option (List Char)
  writeOk : Bool
  recResult : PyResult Unit
  pass1 : ProcResult
  pass2 : ProcResult
  artifactExists : Bool
  pathsDiffer : Bool
  replaceOk : Bool
  replaceErrMsg : List Char

/-- The probing run output handed to the detector (line 747:
process.stdout + process.stderr). -/
def probeOutput (env : CompileEnv) : List Char :=
  env.probe.stdout ++ env.probe.stderr

/-- input().strip().lower() in ('y', 'yes') (line 796). -/
def answerYes (ans : List Char) : Bool :=
  let a := (pyStrip ans).map Char.toLower
  a == "y".toList || a == "yes".toList

/-- How the probing/remediation block (lines 736-808) ends. -/
inductive ProbeStep where
  | proceed
  | done
deriving DecidableEq

/-- The probing and remediation block of compile_pdf (lines 736-808),
including the blanket "except Exception" at line 807 that swallows every
exception raised inside it — so the block either falls through to the
compiling passes (proceed), returns the recursive call's value (done), or
dies on SystemExit. -/
def probePhase (env : CompileEnv) : PyResult ProbeStep × List ProcCall :=
  if (detectMissingPackages (probeOutput env)).isEmpty then
    (.ok .proceed, [.probePass])
  else
    if env.tlmgrOk then
      -- per-package installs; every failure is caught and printed
      -- (lines 783-785), so control always falls through
      (.ok .proceed, [.probePass, .tlmgrCheck] ++
        (detectMissingPackages (probeOutput env)).map ProcCall.tlmgrInstall)
    else
      if (detectMissingPackages (probeOutput env)).contains "fontawesome" &&
          answerYes env.shouldModify then
        match env.faReadOk with
        | some _ =>
          if env.writeOk then
            match env.recResult with
            | .ok _ => (.ok .done, [.probePass, .tlmgrCheck, .recursiveCompile])
            | .exn _ =>
              -- the recursive call raised; caught at line 807, printed,
              -- and the compiling passes of THIS call still run
              (.ok .proceed, [.probePass, .tlmgrCheck, .recursiveCompile])
            | .sysExit c => (.sysExit c, [.probePass, .tlmgrCheck, .recursiveCompile])
          else (.sysExit 1, [.probePass, .tlmgrCheck])
        | none =>
          -- remove_fontawesome returned None; the RuntimeError raised at
          -- line 806 is caught at line 807 and only printed
          (.ok .proceed, [.probePass, .tlmgrCheck])
      else
        -- raise RuntimeError("Required LaTeX packages are missing")
        -- (line 806), caught by the except at line 807 and only printed
        (.ok .proceed, [.probePass, .tlmgrCheck])

/-- error_log = process.stderr if process.stderr else process.stdout
(line 823). -/
def errLog (p : ProcResult) : List Char :=
  if p.stderr.isEmpty then p.stdout else p.stderr

/-- error_log[-500:] if len(error_log) > 500 else error_log (line 824). -/
def errorSample (p : ProcResult) : List Char :=
  if 500 < (errLog p).length
  then (errLog p).drop ((errLog p).length - 500) else errLog p

/-- The last n characters of a string (Python s[-n:] for 0 < n ≤ len). -/
def lastChars (n : Nat) (s : List Char) : List Char :=
  s.drop (s.length - n)

/-- The RuntimeError text a failing pass produces: the message raised at
line 825, rewrapped by the except at line 839. -/
def passFailMsg (p : ProcResult) : List Char :=
  "Error during PDF compilation: PDF compilation failed. Error log: \n".toList
    ++ errorSample p

/-- The two compiling passes, artifact handling and cleanup of
compile_pdf (lines 810-840). -/
def compilePhase (env : CompileEnv) : PyResult Unit × List ProcCall :=
  if env.pass1.exitCode ≠ 0 then
    (.exn (passFailMsg env.pass1), [.compilePass 1])
  else if env.pass2.exitCode ≠ 0 then
    (.exn (passFailMsg env.pass2), [.compilePass 1, .compilePass 2])
  else
    -- cleanup of intermediates (lines 831-834) is effect-free here;
    -- relocation runs only when the derived path differs from the
    -- requested one and the artifact exists (line 836)
    if env.pathsDiffer && env.artifactExists then
      if env.replaceOk then
        (.ok (), [.compilePass 1, .compilePass 2, .moveArtifact])
      else
        (.exn ("Error during PDF compilation: ".toList ++ env.replaceErrMsg),
          [.compilePass 1, .compilePass 2])
    else (.ok (), [.compilePass 1, .compilePass 2])

/-- compile_pdf (tailor.py lines 721-840), with its trace of external
actions. -/
def compile_pdf (env : CompileEnv) : PyResult Unit × List ProcCall :=
  if env.pdflatexOk then
    match probePhase env with
    | (.ok .proceed, t1) =>
      ((compilePhase env).1, .versionCheck :: t1 ++ (compilePhase env).2)
    | (.ok .done, t1) => (.ok (), .versionCheck :: t1)
    | (.exn m, t1) => (.exn m, .versionCheck :: t1)
    | (.sysExit c, t1) => (.sysExit c, .versionCheck :: t1)
  else
    (.exn "pdflatex is not installed or not in your PATH".toList,
      [.versionCheck])

/-! ### The compile_pdf claims -/

theorem compile_pdf_of_proceed (env : CompileEnv)
    (hav : env.pdflatexOk = true)
    (hpp : (probePhase env).1 = PyResult.ok ProbeStep.proceed) :
    compile_pdf env =
      ((compilePhase env).1,
        ProcCall.versionCheck :: (probePhase env).2 ++ (compilePhase env).2) := by
  unfold compile_pdf
  rcases hpe : probePhase env with ⟨r, tr⟩
  rw [hpe] at hpp
  simp only at hpp
  subst hpp
  rw [hav]
  simp

/-- External actions that run the compiler over the document: the probing
pass and the compiling passes (the upfront "pdflatex --version"
availability check and the artifact move are not compile runs). -/
def isCompilerRun : ProcCall → Bool
  | ProcCall.probePass => true
  | ProcCall.compilePass _ => true
  | _ => false

theorem errorSample_length_le (p : ProcResult) :
    (errorSample p).length ≤ 500 := by
  unfold errorSample
  split
  case isTrue h => rw [List.length_drop]; omega
  case isFalse h => omega

/-- Claim C5: for a document whose probing pass reports no missing
dependency and whose compiler passes all exit zero, compile_pdf succeeds;
the compiler is run over the document exactly three times — the probing
pass then the two compiling passes — and no remediation action (no
package install, no recursive compile of a modified document) occurs.
Besides those the function only performs the upfront availability check
and possibly the artifact move. -/
theorem C5_no_missing_three_passes (env : CompileEnv)
    (hav : env.pdflatexOk = true)
    (hmiss : detectMissingPackages (probeOutput env) = [])
    (h1 : env.pass1.exitCode = 0)
    (h2 : env.pass2.exitCode = 0)
    (hrepl : env.replaceOk = true) :
    (compile_pdf env).1 = PyResult.ok () ∧
    (compile_pdf env).2.filter isCompilerRun =
      [ProcCall.probePass, ProcCall.compilePass 1, ProcCall.compilePass 2] ∧
    (∀ pc ∈ (compile_pdf env).2,
      (∀ pkg, pc ≠ ProcCall.tlmgrInstall pkg) ∧
      pc ≠ ProcCall.recursiveCompile) := by
  have hpp : probePhase env = (.ok .proceed, [.probePass]) := by
    unfold probePhase
    rw [hmiss]
    rfl
  have hc := compile_pdf_of_proceed env hav (by rw [hpp])
  cases hmv : env.pathsDiffer && env.artifactExists with
  | false =>
    have hcp : compilePhase env = (.ok (), [.compilePass 1, .compilePass 2]) := by
      unfold compilePhase
      rw [h1, h2, hmv]
      simp
    rw [hc, hcp, hpp]
    refine ⟨rfl, by decide, ?_⟩
    intro pc hpc
    simp only [List.cons_append, List.nil_append, List.mem_cons,
      List.not_mem_nil, or_false] at hpc
    rcases hpc with rfl | rfl | rfl | rfl <;> exact ⟨fun pkg => by simp, by simp⟩
  | true =>
    have hcp : compilePhase env =
        (.ok (), [.compilePass 1, .compilePass 2, .moveArtifact]) := by
      unfold compilePhase
      rw [h1, h2, hmv, hrepl]
      simp
    rw [hc, hcp, hpp]
    refine ⟨rfl, by decide, ?_⟩
    intro pc hpc
    simp only [List.cons_append, List.nil_append, List.mem_cons,
      List.not_mem_nil, or_false] at hpc
    rcases hpc with rfl | rfl | rfl | rfl | rfl <;>
      exact ⟨fun pkg => by simp, by simp⟩

/-- A compile environment in which everything goes right: pdflatex
available, clean probe output, both passes exit zero, artifact in place. -/
def envBase : CompileEnv :=
  { pdflatexOk := true,
    probe := ⟨0, "This is pdfTeX".toList, []⟩,
    tlmgrOk := false,
    installOk := fun _ => false,
    shouldModify := "n".toList,
    faReadOk := none,
    writeOk := true,
    recResult := PyResult.ok (),
    pass1 := ⟨0, "Output written".toList, []⟩,
    pass2 := ⟨0, "Output written".toList, []⟩,
    artifactExists := true,
    pathsDiffer := false,
    replaceOk := true,
    replaceErrMsg := [] }

/-- Witness for C5 at the concrete clean environment. -/
theorem C5_witness :
    (compile_pdf envBase).1 = PyResult.ok () ∧
    (compile_pdf envBase).2.filter isCompilerRun =
      [ProcCall.probePass, ProcCall.compilePass 1, ProcCall.compilePass 2] :=
  ⟨(C5_no_missing_three_passes envBase rfl (by decide) rfl rfl rfl).1,
   (C5_no_missing_three_passes envBase rfl (by decide) rfl rfl rfl).2.1⟩

/-- A probe run whose output reports only the xcolor package missing —
a dependency that is not fontawesome, hence has no remediation. -/
def envC2 : CompileEnv :=
  { envBase with
    probe := ⟨1, styLiteral "xcolor".toList, []⟩,
    pass1 := ⟨1, [], "missing xcolor".toList⟩ }

/-- Claim C2 evidence (code bug): with xcolor detected missing, no tlmgr
available and no remediation entry, compile_pdf does NOT terminate at the
dependency check — the RuntimeError("Required LaTeX packages are
missing") raised at line 806 is swallowed by the blanket
"except Exception" at line 807, the first compiling pass IS attempted,
and the eventual failure carries the compile-pass diagnostic instead of
one identifying the unresolvable dependency. -/
theorem C2_swallowed_raise_runs_compile :
    detectMissingPackages (probeOutput envC2) = ["xcolor"] ∧
    envC2.tlmgrOk = false ∧
    (compile_pdf envC2).2.contains (ProcCall.compilePass 1) = true ∧
    (compile_pdf envC2).1 = PyResult.exn (passFailMsg envC2.pass1) := by decide

/-- Both passes exit zero but the artifact is absent from the derived
path, which differs from the requested one. -/
def envC3absent : CompileEnv :=
  { envBase with artifactExists := false, pathsDiffer := true }

/-- Both passes exit zero, the artifact exists at the derived path and
the requested output path differs. -/
def envC3move : CompileEnv :=
  { envBase with artifactExists := true, pathsDiffer := true }

/-- Counterexample to claim C3 as stated: with zero exit codes on both
passes and the artifact absent from the derived path, compile_pdf does
not fail with "artifact missing" — it returns success without any
relocation. -/
theorem C3_counterexample :
    envC3absent.pass1.exitCode = 0 ∧ envC3absent.pass2.exitCode = 0 ∧
    envC3absent.artifactExists = false ∧
    (compile_pdf envC3absent).1 = PyResult.ok () ∧
    (compile_pdf envC3absent).2.contains ProcCall.moveArtifact = false := by
  decide

/-- Claim C3 as amended: after the two compiling passes the artifact is
looked up at the derived path; when it exists and the derived path
differs from the caller-requested one it is moved into place; when it is
absent despite zero exit codes, no move occurs and compile_pdf completes
successfully anyway (absence is not reported as a failure). -/
theorem C3_artifact_amended (env : CompileEnv)
    (hav : env.pdflatexOk = true)
    (hpp : (probePhase env).1 = PyResult.ok ProbeStep.proceed)
    (h1 : env.pass1.exitCode = 0)
    (h2 : env.pass2.exitCode = 0) :
    (env.artifactExists = false →
      (compile_pdf env).1 = PyResult.ok () ∧
      ProcCall.moveArtifact ∉ (compile_pdf env).2) ∧
    (env.artifactExists = true → env.pathsDiffer = true →
      env.replaceOk = true →
      (compile_pdf env).1 = PyResult.ok () ∧
      ProcCall.moveArtifact ∈ (compile_pdf env).2) := by
  have hc := compile_pdf_of_proceed env hav hpp
  have hnm : ProcCall.moveArtifact ∉ (probePhase env).2 := by
    unfold probePhase
    repeat' split
    all_goals simp
  constructor
  · intro hab
    have hcp : compilePhase env = (.ok (), [.compilePass 1, .compilePass 2]) := by
      unfold compilePhase
      rw [h1, h2, hab]
      simp
    rw [hc, hcp]
    refine ⟨rfl, ?_⟩
    intro hmem
    rcases List.mem_cons.mp hmem with h | h
    · exact ProcCall.noConfusion h
    · rcases List.mem_append.mp h with h | h
      · exact hnm h
      · simp at h
  · intro hex hdif hrep
    have hcp : compilePhase env =
        (.ok (), [.compilePass 1, .compilePass 2, .moveArtifact]) := by
      unfold compilePhase
      rw [h1, h2, hex, hdif, hrep]
      simp
    rw [hc, hcp]
    exact ⟨rfl, by simp⟩

/-- Witness for the amended C3 at the two concrete environments. -/
theorem C3_witness :
    ((compile_pdf envC3absent).1 = PyResult.ok () ∧
      ProcCall.moveArtifact ∉ (compile_pdf envC3absent).2) ∧
    ((compile_pdf envC3move).1 = PyResult.ok () ∧
      ProcCall.moveArtifact ∈ (compile_pdf envC3move).2) :=
  ⟨(C3_artifact_amended envC3absent rfl (by decide) rfl rfl).1 rfl,
   (C3_artifact_amended envC3move rfl (by decide) rfl rfl).2 rfl rfl rfl⟩

/-- A first compiling pass that fails with both streams non-empty. -/
def envC4 : CompileEnv :=
  { envBase with pass1 := ⟨1, "out".toList, "err".toList⟩ }

/-- A second compiling pass that fails with both streams non-empty. -/
def envC4b : CompileEnv :=
  { envBase with pass2 := ⟨1, "out".toList, "err".toList⟩ }

/-- Counterexample to claim C4 as stated: on a failing pass whose stdout
and stderr are both non-empty, the diagnostic sample the raised error
carries is taken from stderr alone (error_log = stderr if stderr else
stdout, line 823), not from the combined stdout+stderr output. -/
theorem C4_counterexample :
    (compile_pdf envC4).1 = PyResult.exn (passFailMsg envC4.pass1) ∧
    errorSample envC4.pass1 = "err".toList ∧
    lastChars 500 (envC4.pass1.stdout ++ envC4.pass1.stderr) =
      "outerr".toList ∧
    ("err".toList : List Char) ≠ "outerr".toList := by decide

/-- Claim C4 as amended: for every compiling pass of compile_pdf that
exits non-zero, the pipeline fails carrying as diagnostic sample the last
500 characters of that pass's stderr if stderr is non-empty and of its
stdout otherwise, and the sample's length is always at most 500
characters (the raised message prepends a fixed prefix to the sample). -/
theorem C4_diagnostic_amended (env : CompileEnv)
    (hav : env.pdflatexOk = true)
    (hpp : (probePhase env).1 = PyResult.ok ProbeStep.proceed) :
    (env.pass1.exitCode ≠ 0 →
      (compile_pdf env).1 = PyResult.exn (passFailMsg env.pass1) ∧
      (errorSample env.pass1).length ≤ 500) ∧
    (env.pass1.exitCode = 0 → env.pass2.exitCode ≠ 0 →
      (compile_pdf env).1 = PyResult.exn (passFailMsg env.pass2) ∧
      (errorSample env.pass2).length ≤ 500) := by
  have hc := compile_pdf_of_proceed env hav hpp
  constructor
  · intro hne
    refine ⟨?_, errorSample_length_le _⟩
    rw [hc]
    show (compilePhase env).1 = _
    unfold compilePhase
    rw [if_pos hne]
  · intro h1 hne
    refine ⟨?_, errorSample_length_le _⟩
    rw [hc]
    show (compilePhase env).1 = _
    unfold compilePhase
    rw [if_neg (by simp [h1]), if_pos hne]

/-- Witness for the amended C4 at the two concrete environments: a
failure on pass 1 and a failure on pass 2. -/
theorem C4_witness :
    ((compile_pdf envC4).1 = PyResult.exn (passFailMsg envC4.pass1) ∧
      (errorSample envC4.pass1).length ≤ 500) ∧
    ((compile_pdf envC4b).1 = PyResult.exn (passFailMsg envC4b.pass2) ∧
      (errorSample envC4b.pass2).length ≤ 500) :=
  ⟨(C4_diagnostic_amended envC4 rfl (by decide)).1 (by decide),
   (C4_diagnostic_amended envC4b rfl (by decide)).2 rfl (by decide)⟩

/-! ## tailor_resume (tailor.py lines 337-576) and the batch loop of
process_batch_jobs (lines 918-1006)

Only the exception behaviour of tailor_resume matters to the batch
claims.  Its sys.exit(1) calls — missing OPENAI_API_KEY (line 358), an
OpenAI API error (line 467), and write_file failures (line 718) — raise
SystemExit, which no "except Exception" catches.  The compile_pdf call is
wrapped in try/except Exception (lines 488-506), so a compile failure is
only reported; a SystemExit from inside compile_pdf still escapes.
open_in_editor (lines 878-894), generate_recruiter_email (lines 579-646)
and send_email (lines 1033-1100) catch their own failures and never
propagate.

The batch loop checks the four required CSV fields (skip on absence),
checks the template and job-description paths (skip when missing), reads
them — load_template exits the process on a read failure (line 334),
while the plain open of the job description raises an ordinary OSError —
and calls tailor_resume inside try/except Exception (lines 919/1004)
which records the error text and continues with the next job. -/

/-- The external world of one tailor_resume call. -/
structure TailorEnv where
  apiKeyPresent : Bool
  apiResponse : Option (List Char)
  writeTexOk : Bool
  compileEnv : CompileEnv
  writeEmailOk : Bool

/-- tailor_resume (lines 337-576): the control flow relevant to what can
escape the call.  genEmail is the generate_email-and-recruiter_name
condition computed by the caller (lines 965 and 512). -/
def tailor_resume (e : TailorEnv) (genEmail : Bool) : PyResult Unit :=
  if e.apiKeyPresent then
    match e.apiResponse with
    | none => .sysExit 1
    | some _ =>
      -- the response is cleaned by clean_latex_content (line 470, pure,
      -- total) and written to disk (line 482); only the success of the
      -- write affects what can escape the call
      if e.writeTexOk then
        match (compile_pdf e.compileEnv).1 with
        | .sysExit c => .sysExit c
        | _ =>
          -- a compile exception is caught at line 493 and only reported
          if genEmail then
            if e.writeEmailOk then .ok () else .sysExit 1
          else .ok ()
      else .sysExit 1
  else .sysExit 1

/-- One row of the batch CSV (csv.DictReader): a field is none when the
column is absent and some "" when present but empty.  The optional
pain-points and keywords columns are read inside try/except blocks that
only warn (lines 950-957 and 971-985), so they cannot affect the control
flow modelled here. -/
structure BatchJob where
  company : Option String
  role : Option String
  template : Option String
  job_description_file : Option String
  recruiter_name : Option String

/-- "field not in job or not job[field]" (line 923). -/
def fieldMissing (f : Option String) : Bool :=
  match f with
  | none => true
  | some s => s == ""

/-- The missing-required-fields list, in the order of required_fields
(lines 921-923). -/
def missingFields (j : BatchJob) : List String :=
  (if fieldMissing j.company then ["company"] else []) ++
  (if fieldMissing j.role then ["role"] else []) ++
  (if fieldMissing j.template then ["template"] else []) ++
  (if fieldMissing j.job_description_file then ["job_description_file"] else [])

/-- generate_email = recruiter_name present and non-blank (line 965). -/
def recruiterPresent (j : BatchJob) : Bool :=
  match j.recruiter_name with
  | none => false
  | some s => !(pyStrip s.toList).isEmpty

/-- The external world of one batch-job iteration. -/
structure JobEnv where
  job : BatchJob
  templateExists : Bool
  templateReadOk : Bool
  jdExists : Bool
  jdReadErr : Option (List Char)
  tailorEnv : TailorEnv

/-- The recorded outcome of one batch-job iteration. -/
inductive JobOutcome where
  | skippedFields (missing : List String)
  | skippedTemplate
  | skippedJd
  | completed
  | errored (msg : List Char)
deriving DecidableEq

/-- The body of the per-job try block (lines 920-1002). -/
def processJob (e : JobEnv) : PyResult JobOutcome :=
  if !(missingFields e.job).isEmpty then .ok (.skippedFields (missingFields e.job))
  else if !e.templateExists then .ok .skippedTemplate
  else if !e.templateReadOk then .sysExit 1
  else if !e.jdExists then .ok .skippedJd
  else
    match e.jdReadErr with
    | some m => .exn m
    | none =>
      match tailor_resume e.tailorEnv (recruiterPresent e.job) with
      | .ok _ => .ok .completed
      | .exn m => .exn m
      | .sysExit c => .sysExit c

/-- The batch loop (lines 918-1006): each job body runs inside
try/except Exception; an ordinary exception is printed and recorded and
the loop continues, while SystemExit is not caught and terminates the
whole run.  Returns the recorded outcomes in order and the exit code, if
the run was terminated early. -/
def process_batch_jobs : List JobEnv → List JobOutcome × Option Nat
  | [] => ([], none)
  | e :: rest =>
    match processJob e with
    | .ok out =>
      ((out :: (process_batch_jobs rest).1), (process_batch_jobs rest).2)
    | .exn m =>
      ((JobOutcome.errored m :: (process_batch_jobs rest).1),
        (process_batch_jobs rest).2)
    | .sysExit c => ([], some c)

/-- Does the per-job body end in SystemExit? -/
def jobSysExits (e : JobEnv) : Bool :=
  match processJob e with
  | .sysExit _ => true
  | _ => false

/-- A fully-functional job row. -/
def goodJob : BatchJob :=
  { company := some "Acme", role := some "Engineer",
    template := some "resume.tex", job_description_file := some "jd.txt",
    recruiter_name := none }

/-- A tailor environment in which everything succeeds. -/
def tailorOk : TailorEnv :=
  { apiKeyPresent := true,
    apiResponse := some "\\documentclass{article}".toList,
    writeTexOk := true, compileEnv := envBase, writeEmailOk := true }

/-- A job iteration in which everything succeeds. -/
def jobEnvGood : JobEnv :=
  { job := goodJob, templateExists := true, templateReadOk := true,
    jdExists := true, jdReadErr := none, tailorEnv := tailorOk }

/-- The same job, but the OpenAI call fails — tailor_resume then calls
sys.exit(1) (line 467). -/
def jobEnvApiFail : JobEnv :=
  { jobEnvGood with tailorEnv := { tailorOk with apiResponse := none } }

/-- The same job, but reading the job description raises an OSError. -/
def jobEnvJdFail : JobEnv :=
  { jobEnvGood with jdReadErr := some "Permission denied".toList }

/-- Counterexample to claim C1 as stated: in a batch of two processable
jobs whose first job hits an OpenAI API error, tailor_resume calls
sys.exit(1); SystemExit is not an Exception, escapes the per-job handler
at line 1004 and terminates the whole batch — the second job is never
processed and no outcome is recorded. -/
theorem C1_counterexample :
    [jobEnvApiFail, jobEnvGood].length = 2 ∧
    (process_batch_jobs [jobEnvApiFail, jobEnvGood]).1.length = 0 ∧
    (process_batch_jobs [jobEnvApiFail, jobEnvGood]).2 = some 1 := by decide

/-- Claim C1 as amended: every error raised as an ordinary Exception at
the per-job boundary is caught, recorded as the job's outcome, and
processing continues with every subsequent job — so a batch none of
whose jobs ends in SystemExit records exactly one outcome per job and is
never terminated early.  However, the sys.exit(1) calls reachable from a
job (missing API key, OpenAI API failure, file-write failure) raise
SystemExit, which the per-job "except Exception" does not catch and
which terminates the whole batch. -/
theorem C1_batch_fault_isolation :
    (∀ jobs : List JobEnv, (∀ e ∈ jobs, jobSysExits e = false) →
      (process_batch_jobs jobs).1.length = jobs.length ∧
      (process_batch_jobs jobs).2 = none) ∧
    (∀ (e : JobEnv) (rest : List JobEnv) (m : List Char),
      processJob e = PyResult.exn m →
      process_batch_jobs (e :: rest) =
        (JobOutcome.errored m :: (process_batch_jobs rest).1,
          (process_batch_jobs rest).2)) := by
  constructor
  · intro jobs
    induction jobs with
    | nil => intro _; exact ⟨rfl, rfl⟩
    | cons e rest ih =>
      intro h
      have he := h e (List.mem_cons_self e rest)
      have hr := ih (fun e' he' => h e' (List.mem_cons_of_mem e he'))
      unfold jobSysExits at he
      rcases hpe : processJob e with out | m | c
      · unfold process_batch_jobs
        rw [hpe]
        exact ⟨by simp [hr.1], hr.2⟩
      · unfold process_batch_jobs
        rw [hpe]
        exact ⟨by simp [hr.1], hr.2⟩
      · rw [hpe] at he
        exact Bool.noConfusion he
  · intro e rest m hpe
    rw [process_batch_jobs, hpe]

/-- Witness for the amended C1: a batch of a succeeding job and a job
whose job-description read raises an ordinary OSError records both
outcomes, and the exception is recorded as the failing job's outcome
while the other job still runs. -/
theorem C1_witness :
    ((process_batch_jobs [jobEnvGood, jobEnvJdFail]).1.length = 2 ∧
      (process_batch_jobs [jobEnvGood, jobEnvJdFail]).2 = none) ∧
    process_batch_jobs [jobEnvJdFail, jobEnvGood] =
      (JobOutcome.errored "Permission denied".toList ::
        (process_batch_jobs [jobEnvGood]).1,
        (process_batch_jobs [jobEnvGood]).2) :=
  ⟨C1_batch_fault_isolation.1 [jobEnvGood, jobEnvJdFail] (by decide),
   C1_batch_fault_isolation.2 jobEnvJdFail [jobEnvGood]
     "Permission denied".toList (by decide)⟩
